import Mathlib

/-!
Verification of AmazonManager against its specification.

The development shallowly embeds the two pieces of this repository that the
claims are about:

* `home/management/commands/setup_homepage.py` — the administrative command
  that ensures a homepage record and a default site configuration exist.
  The Django/Wagtail database is modelled as an explicit `Db` state holding
  page and site rows; ORM `get`/`filter`/`save`/`create` calls become
  functions on that state, with uncaught ORM exceptions surfacing as
  `Except.error`.

* `tests/conftest.py` — the Selenium fixture and diagnostics layer.  The
  browser driver, the screenshot helpers and the failure-report hook are
  embedded as functions parametrised by the outcomes of the external
  effects they perform (session creation, file writes), so that every
  control path of the Python code corresponds to a case of the Lean
  function.
-/

/-! ### Database model for `setup_homepage` -/

/-- A Wagtail page row.  `isHomePage` records whether the row belongs to the
`HomePage` subclass (the table `HomePage.objects` queries); `depth` is the
tree depth, with the root at depth 1. -/
structure PageRec where
  id : Nat
  depth : Nat
  slug : String
  title : String
  body : String
  isHomePage : Bool
deriving DecidableEq, Repr

/-- A Wagtail site-configuration row. -/
structure SiteRec where
  id : Nat
  hostname : String
  port : Nat
  siteName : String
  rootPageId : Nat
  isDefaultSite : Bool
deriving DecidableEq, Repr

/-- The database state seen by the command: page rows, site rows, and the
next fresh primary keys. -/
structure Db where
  pages : List PageRec
  sites : List SiteRec
  nextPageId : Nat
  nextSiteId : Nat
deriving DecidableEq, Repr

/-- Rows returned by `Page.objects.filter(depth=1)`. -/
def rootPages (db : Db) : List PageRec :=
  db.pages.filter (fun p => p.depth == 1)

/-- Rows returned by `HomePage.objects.filter(slug=s)`. -/
def homePages (db : Db) (s : String) : List PageRec :=
  db.pages.filter (fun p => p.isHomePage && p.slug == s)

/-- Rows returned by `Site.objects.filter(is_default_site=True)`. -/
def defaultSites (db : Db) : List SiteRec :=
  db.sites.filter (fun s => s.isDefaultSite)

/-- The `HomePage` instance built by the command before `root.add_child`. -/
def createdHomePage (db : Db) (root : PageRec) : PageRec :=
  { id := db.nextPageId
    depth := root.depth + 1
    slug := "home"
    title := "Amazon Manager"
    body := "<p>Welcome to Amazon Manager - your comprehensive solution for managing Amazon operations.</p>"
    isHomePage := true }

/-- Step of `Command.handle` that ensures the homepage record exists:
`HomePage.objects.filter(slug='home').exists()` followed either by
`HomePage.objects.get(slug='home')` (raising `MultipleObjectsReturned` when
several rows match) or by creating the record as a child of the root. -/
def ensureHomePage (db : Db) (root : PageRec) :
    Except String (Db × PageRec × List String) :=
  match homePages db "home" with
  | [] =>
      let hp := createdHomePage db root
      .ok ({ db with pages := db.pages ++ [hp], nextPageId := db.nextPageId + 1 },
           hp, ["HomePage created successfully"])
  | [hp] => .ok (db, hp, ["HomePage already exists"])
  | _ => .error "MultipleObjectsReturned"

/-- The site row built by `Site.objects.create(...)` when no default site exists. -/
def createdSite (db : Db) (hp : PageRec) : SiteRec :=
  { id := db.nextSiteId
    hostname := "localhost"
    port := 8000
    siteName := "Amazon Manager"
    rootPageId := hp.id
    isDefaultSite := true }

/-- Step of `Command.handle` that points the default site at the homepage:
`Site.objects.get(is_default_site=True)` then `site.save()` on success,
`Site.objects.create(...)` when no default site exists; only `DoesNotExist`
is caught, so several default sites raise `MultipleObjectsReturned`. -/
def ensureSite (db : Db) (hp : PageRec) : Except String (Db × List String) :=
  match defaultSites db with
  | [] =>
      .ok ({ db with
              sites := db.sites ++ [createdSite db hp]
              nextSiteId := db.nextSiteId + 1 },
           ["Site created successfully"])
  | [site] =>
      .ok ({ db with
              sites := db.sites.map (fun s =>
                if s.id == site.id then { s with rootPageId := hp.id } else s) },
           ["Site updated to use HomePage as root"])
  | _ => .error "MultipleObjectsReturned"

/-- The whole `Command.handle`: looks up the tree root (`Page.objects.get(depth=1)`,
catching only `DoesNotExist`), ensures the homepage record, then the site
configuration.  Returns the final database state together with the status
lines written to standard output, or the uncaught ORM exception. -/
def handle (db : Db) : Except String (Db × List String) :=
  match rootPages db with
  | [] => .ok (db, ["Root page not found. Run migrations first."])
  | [root] =>
      match ensureHomePage db root with
      | .error e => .error e
      | .ok (db1, hp, m1) =>
          match ensureSite db1 hp with
          | .error e => .error e
          | .ok (db2, m2) =>
              .ok (db2, m1 ++ m2 ++ ["Site setup completed successfully"])
  | _ => .error "MultipleObjectsReturned"

/-- The database invariants the surrounding framework maintains (spec §3):
exactly one tree root, slug `home` unique among `HomePage` rows, and at most
one site flagged as default. -/
def Db.wf (db : Db) : Prop :=
  (rootPages db).length = 1 ∧
  (homePages db "home").length ≤ 1 ∧
  (defaultSites db).length ≤ 1

instance (db : Db) : Decidable db.wf := by
  unfold Db.wf
  infer_instance

/-- Filtering commutes with a map that does not change the filtered bit. -/
theorem filter_map_comm {α : Type} (f : α → α) (p : α → Bool) (l : List α)
    (h : ∀ a, p (f a) = p a) : (l.map f).filter p = (l.filter p).map f := by
  induction l with
  | nil => rfl
  | cons a t ih =>
      by_cases hpa : p a = true
      · simp [List.filter_cons, hpa, h a, ih]
      · simp only [Bool.not_eq_true] at hpa
        simp [List.filter_cons, hpa, h a, ih]


/-- Branch equation: when no homepage record exists, the command creates one
as a child of the root and reports success. -/
theorem ensureHomePage_of_absent (db : Db) (root : PageRec)
    (hl : homePages db "home" = []) :
    ∃ db1, ensureHomePage db root =
        .ok (db1, createdHomePage db root, ["HomePage created successfully"]) ∧
      db1.pages = db.pages ++ [createdHomePage db root] ∧
      db1.sites = db.sites ∧ db1.nextSiteId = db.nextSiteId := by
  refine ⟨{ db with
            pages := db.pages ++ [createdHomePage db root]
            nextPageId := db.nextPageId + 1 }, ?_, rfl, rfl, rfl⟩
  simp only [ensureHomePage, hl]

/-- Branch equation: when the homepage record exists, it is reused and the
command reports that it already exists. -/
theorem ensureHomePage_of_present (db : Db) (root hp : PageRec)
    (hl : homePages db "home" = [hp]) :
    ensureHomePage db root = .ok (db, hp, ["HomePage already exists"]) := by
  simp only [ensureHomePage, hl]

/-- Branch equation: when no default site exists, the command creates one
rooted at the homepage. -/
theorem ensureSite_of_absent (db : Db) (hp : PageRec)
    (hd : defaultSites db = []) :
    ∃ db2, ensureSite db hp = .ok (db2, ["Site created successfully"]) ∧
      db2.pages = db.pages ∧ db2.sites = db.sites ++ [createdSite db hp] := by
  refine ⟨{ db with
            sites := db.sites ++ [createdSite db hp]
            nextSiteId := db.nextSiteId + 1 }, ?_, rfl, rfl⟩
  simp only [ensureSite, hd]

/-- Branch equation: when a default site exists, its root page is re-pointed
at the homepage and saved. -/
theorem ensureSite_of_present (db : Db) (hp : PageRec) (site : SiteRec)
    (hd : defaultSites db = [site]) :
    ∃ db2, ensureSite db hp = .ok (db2, ["Site updated to use HomePage as root"]) ∧
      db2.pages = db.pages ∧
      db2.sites = db.sites.map (fun s =>
        if s.id == site.id then { s with rootPageId := hp.id } else s) := by
  refine ⟨{ db with sites := db.sites.map (fun s =>
            if s.id == site.id then { s with rootPageId := hp.id } else s) },
          ?_, rfl, rfl⟩
  simp only [ensureSite, hd]

/-- Composition of the three stages of `Command.handle` on the success path. -/
theorem handle_ok (db db1 db2 : Db) (root hp : PageRec) (m1 m2 : List String)
    (hr : rootPages db = [root])
    (hhp : ensureHomePage db root = .ok (db1, hp, m1))
    (hst : ensureSite db1 hp = .ok (db2, m2)) :
    handle db = .ok (db2, m1 ++ m2 ++ ["Site setup completed successfully"]) := by
  simp only [handle, hr, hhp, hst]

/-- One run of the command from a well-formed state succeeds, reaches a state
with exactly one homepage record and exactly one default site pointing at it,
preserves the database invariants, and reports an already-existing homepage
when one was there. -/
theorem handle_run (db : Db) (hwf : db.wf) :
    ∃ db2 m, handle db = .ok (db2, m) ∧ db2.wf ∧
      (homePages db2 "home").length = 1 ∧
      (defaultSites db2).length = 1 ∧
      (∀ hp ∈ homePages db2 "home", ∀ s ∈ defaultSites db2, s.rootPageId = hp.id) ∧
      (homePages db "home" ≠ [] → "HomePage already exists" ∈ m) := by
  obtain ⟨h1, h2, h3⟩ := hwf
  obtain ⟨root, hr⟩ := List.length_eq_one.mp h1
  have hrootdepth : root.depth = 1 := by
    have hm : root ∈ db.pages.filter (fun p => p.depth == 1) := by
      rw [show db.pages.filter (fun p => p.depth == 1) = rootPages db from rfl, hr]
      exact List.mem_singleton_self root
    simpa using (List.mem_filter.mp hm).2
  rcases hl : homePages db "home" with _ | ⟨hp, _ | ⟨hp2, t⟩⟩
  · -- homepage absent: it gets created
    obtain ⟨db1, hHP, hps1, hss1, hns1⟩ := ensureHomePage_of_absent db root hl
    have hl' : db.pages.filter (fun p => p.isHomePage && p.slug == "home") = [] := hl
    have hr' : db.pages.filter (fun p => p.depth == 1) = [root] := hr
    have hhome1 : homePages db1 "home" = [createdHomePage db root] := by
      simp [homePages, hps1, List.filter_append, hl', createdHomePage]
    have hroot1 : rootPages db1 = [root] := by
      simp [rootPages, hps1, List.filter_append, hr', createdHomePage, hrootdepth]
    rcases hd : defaultSites db with _ | ⟨site, _ | ⟨site2, ts⟩⟩
    · -- no default site: it gets created
      have hd1 : defaultSites db1 = [] := by
        rw [show defaultSites db1 = db1.sites.filter (fun s => s.isDefaultSite) from rfl,
          hss1]
        exact hd
      obtain ⟨db2, hST, hps2, hss2⟩ :=
        ensureSite_of_absent db1 (createdHomePage db root) hd1
      have hhome2 : homePages db2 "home" = [createdHomePage db root] := by
        rw [show homePages db2 "home"
            = db2.pages.filter (fun p => p.isHomePage && p.slug == "home") from rfl, hps2]
        exact hhome1
      have hroot2 : rootPages db2 = [root] := by
        rw [show rootPages db2 = db2.pages.filter (fun p => p.depth == 1) from rfl, hps2]
        exact hroot1
      have hdef2 : defaultSites db2 = [createdSite db1 (createdHomePage db root)] := by
        rw [show defaultSites db2 = db2.sites.filter (fun s => s.isDefaultSite) from rfl,
          hss2, List.filter_append,
          show db1.sites.filter (fun s => s.isDefaultSite) = defaultSites db1 from rfl,
          hd1]
        simp [createdSite]
      refine ⟨db2, _, handle_ok db db1 db2 root (createdHomePage db root) _ _ hr hHP hST,
        ⟨?_, ?_, ?_⟩, ?_, ?_, ?_, ?_⟩
      · simp [hroot2]
      · simp [hhome2]
      · simp [hdef2]
      · simp [hhome2]
      · simp [hdef2]
      · intro p hpmem s hsmem
        rw [hhome2] at hpmem
        rw [hdef2] at hsmem
        simp at hpmem hsmem
        subst hpmem
        subst hsmem
        simp [createdSite, hss1, hns1]
      · intro hne
        exact absurd rfl hne
    · -- a default site exists: it is re-pointed at the homepage
      have hd1 : defaultSites db1 = [site] := by
        rw [show defaultSites db1 = db1.sites.filter (fun s => s.isDefaultSite) from rfl,
          hss1]
        exact hd
      obtain ⟨db2, hST, hps2, hss2⟩ :=
        ensureSite_of_present db1 (createdHomePage db root) site hd1
      have hhome2 : homePages db2 "home" = [createdHomePage db root] := by
        rw [show homePages db2 "home"
            = db2.pages.filter (fun p => p.isHomePage && p.slug == "home") from rfl, hps2]
        exact hhome1
      have hroot2 : rootPages db2 = [root] := by
        rw [show rootPages db2 = db2.pages.filter (fun p => p.depth == 1) from rfl, hps2]
        exact hroot1
      have hdef2 : defaultSites db2
          = [{ site with rootPageId := (createdHomePage db root).id }] := by
        rw [show defaultSites db2 = db2.sites.filter (fun s => s.isDefaultSite) from rfl,
          hss2, filter_map_comm,
          show db1.sites.filter (fun s => s.isDefaultSite) = defaultSites db1 from rfl,
          hd1]
        · simp
        · intro a
          by_cases ha : a.id == site.id <;> simp [ha]
      refine ⟨db2, _, handle_ok db db1 db2 root (createdHomePage db root) _ _ hr hHP hST,
        ⟨?_, ?_, ?_⟩, ?_, ?_, ?_, ?_⟩
      · simp [hroot2]
      · simp [hhome2]
      · simp [hdef2]
      · simp [hhome2]
      · simp [hdef2]
      · intro p hpmem s hsmem
        rw [hhome2] at hpmem
        rw [hdef2] at hsmem
        simp at hpmem hsmem
        subst hpmem
        subst hsmem
        rfl
      · intro hne
        exact absurd rfl hne
    · -- two default sites: excluded by well-formedness
      rw [hd] at h3
      simp at h3
  · -- homepage present: it is reused and reported
    have hHP := ensureHomePage_of_present db root hp hl
    rcases hd : defaultSites db with _ | ⟨site, _ | ⟨site2, ts⟩⟩
    · obtain ⟨db2, hST, hps2, hss2⟩ := ensureSite_of_absent db hp hd
      have hhome2 : homePages db2 "home" = [hp] := by
        rw [show homePages db2 "home"
            = db2.pages.filter (fun p => p.isHomePage && p.slug == "home") from rfl, hps2]
        exact hl
      have hroot2 : rootPages db2 = [root] := by
        rw [show rootPages db2 = db2.pages.filter (fun p => p.depth == 1) from rfl, hps2]
        exact hr
      have hdef2 : defaultSites db2 = [createdSite db hp] := by
        rw [show defaultSites db2 = db2.sites.filter (fun s => s.isDefaultSite) from rfl,
          hss2, List.filter_append,
          show db.sites.filter (fun s => s.isDefaultSite) = defaultSites db from rfl, hd]
        simp [createdSite]
      refine ⟨db2, _, handle_ok db db db2 root hp _ _ hr hHP hST,
        ⟨?_, ?_, ?_⟩, ?_, ?_, ?_, ?_⟩
      · simp [hroot2]
      · simp [hhome2]
      · simp [hdef2]
      · simp [hhome2]
      · simp [hdef2]
      · intro p hpmem s hsmem
        rw [hhome2] at hpmem
        rw [hdef2] at hsmem
        simp at hpmem hsmem
        subst hpmem
        subst hsmem
        rfl
      · intro _
        simp
    · obtain ⟨db2, hST, hps2, hss2⟩ := ensureSite_of_present db hp site hd
      have hhome2 : homePages db2 "home" = [hp] := by
        rw [show homePages db2 "home"
            = db2.pages.filter (fun p => p.isHomePage && p.slug == "home") from rfl, hps2]
        exact hl
      have hroot2 : rootPages db2 = [root] := by
        rw [show rootPages db2 = db2.pages.filter (fun p => p.depth == 1) from rfl, hps2]
        exact hr
      have hdef2 : defaultSites db2 = [{ site with rootPageId := hp.id }] := by
        rw [show defaultSites db2 = db2.sites.filter (fun s => s.isDefaultSite) from rfl,
          hss2, filter_map_comm,
          show db.sites.filter (fun s => s.isDefaultSite) = defaultSites db from rfl, hd]
        · simp
        · intro a
          by_cases ha : a.id == site.id <;> simp [ha]
      refine ⟨db2, _, handle_ok db db db2 root hp _ _ hr hHP hST,
        ⟨?_, ?_, ?_⟩, ?_, ?_, ?_, ?_⟩
      · simp [hroot2]
      · simp [hhome2]
      · simp [hdef2]
      · simp [hhome2]
      · simp [hdef2]
      · intro p hpmem s hsmem
        rw [hhome2] at hpmem
        rw [hdef2] at hsmem
        simp at hpmem hsmem
        subst hpmem
        subst hsmem
        rfl
      · intro _
        simp
    · rw [hd] at h3
      simp at h3
  · -- two homepage rows: excluded by well-formedness
    rw [hl] at h2
    simp at h2

/-- C1: the homepage initializer is idempotent — from any well-formed starting
state containing the tree root, running `Command.handle` twice succeeds, leaves
exactly one homepage record with slug `home` and exactly one default site
configuration whose root page is that record, and the second run reports that
the record already exists instead of creating a duplicate. -/
theorem setup_homepage_idempotent (db : Db) (hwf : db.wf) :
    ∃ db1 m1 db2 m2,
      handle db = .ok (db1, m1) ∧
      handle db1 = .ok (db2, m2) ∧
      (homePages db2 "home").length = 1 ∧
      (defaultSites db2).length = 1 ∧
      (∀ hp ∈ homePages db2 "home", ∀ s ∈ defaultSites db2, s.rootPageId = hp.id) ∧
      "HomePage already exists" ∈ m2 := by
  obtain ⟨db1, m1, hrun1, hwf1, hlen1, hd1, hpt1, hmsg1⟩ := handle_run db hwf
  obtain ⟨db2, m2, hrun2, hwf2, hlen2, hd2, hpt2, hmsg2⟩ := handle_run db1 hwf1
  refine ⟨db1, m1, db2, m2, hrun1, hrun2, hlen2, hd2, hpt2, hmsg2 ?_⟩
  intro hnil
  rw [hnil] at hlen1
  simp at hlen1

/-- A concrete fresh database holding only the Wagtail tree root. -/
def dbInit : Db :=
  { pages := [{ id := 1, depth := 1, slug := "root", title := "Root", body := "",
                isHomePage := false }]
    sites := []
    nextPageId := 2
    nextSiteId := 1 }

/-- Witness for C1 at the concrete state `dbInit`. -/
theorem setup_homepage_idempotent_witness :
    Db.wf dbInit ∧
    ∃ db1 m1 db2 m2,
      handle dbInit = .ok (db1, m1) ∧
      handle db1 = .ok (db2, m2) ∧
      (homePages db2 "home").length = 1 ∧
      (defaultSites db2).length = 1 ∧
      (∀ hp ∈ homePages db2 "home", ∀ s ∈ defaultSites db2, s.rootPageId = hp.id) ∧
      "HomePage already exists" ∈ m2 :=
  ⟨by decide, setup_homepage_idempotent dbInit (by decide)⟩

/-- C2: when no tree root exists, `Command.handle` reports the error and
returns with the database completely unchanged — no homepage record and no
site configuration is created or modified. -/
theorem setup_homepage_no_root_noop (db : Db) (h : rootPages db = []) :
    handle db = .ok (db, ["Root page not found. Run migrations first."]) := by
  simp only [handle, h]

/-- A concrete database with no tree root at all. -/
def dbNoRoot : Db :=
  { pages := [], sites := [], nextPageId := 1, nextSiteId := 1 }

/-- Witness for C2 at the concrete state `dbNoRoot`. -/
theorem setup_homepage_no_root_noop_witness :
    rootPages dbNoRoot = [] ∧
    handle dbNoRoot = .ok (dbNoRoot, ["Root page not found. Run migrations first."]) :=
  ⟨rfl, setup_homepage_no_root_noop dbNoRoot rfl⟩

/-! ### The `driver` fixture of `tests/conftest.py` -/

/-- The two WebDriver classes the fixture can instantiate. -/
inductive BrowserKind where
  | chrome
  | firefox
deriving DecidableEq, Repr

/-- The option object built for one branch of the fixture: which WebDriver
class is used and the `add_argument` calls made on its options. -/
structure DriverConfig where
  kind : BrowserKind
  args : List String
deriving DecidableEq, Repr

/-- Arguments added to `ChromeOptions` in the chrome / headless-chrome branch
of the `driver` fixture. -/
def chromeArgs (headless : Bool) (browserLower : String) : List String :=
  let base := ["--no-sandbox", "--disable-dev-shm-usage", "--disable-gpu",
               "--window-size=1920,1080"]
  if headless || browserLower == "headless-chrome" then base ++ ["--headless=new"]
  else base

/-- Arguments added to `FirefoxOptions` in the firefox branch. -/
def firefoxArgs (headless : Bool) : List String :=
  if headless then ["--headless"] else []

/-- The Python `str.lower()` call on the browser name, character by
character (the names compared against are all ASCII). -/
def pyLower (s : String) : String :=
  ⟨s.data.map Char.toLower⟩

/-- The branch selection of the `driver` fixture: the chain of
`browser_name.lower() == ...` tests, ending in
`raise ValueError(f"Unsupported browser: {browser_name}")`. -/
def buildConfig (browserName : String) (headless : Bool) :
    Except String DriverConfig :=
  let lower := pyLower browserName
  if lower == "chrome" || lower == "headless-chrome" then
    .ok { kind := .chrome, args := chromeArgs headless lower }
  else if lower == "firefox" then
    .ok { kind := .firefox, args := firefoxArgs headless }
  else
    .error ("Unsupported browser: " ++ browserName)

instance {ε α : Type} [DecidableEq ε] [DecidableEq α] : DecidableEq (Except ε α) :=
  fun x y =>
    match x, y with
    | .ok a, .ok b =>
        if h : a = b then .isTrue (by rw [h])
        else .isFalse (fun hh => h (Except.ok.inj hh))
    | .error a, .error b =>
        if h : a = b then .isTrue (by rw [h])
        else .isFalse (fun hh => h (Except.error.inj hh))
    | .ok _, .error _ => .isFalse (fun hh => Except.noConfusion hh)
    | .error _, .ok _ => .isFalse (fun hh => Except.noConfusion hh)

/-- Outcomes of the external effects the fixture performs, in program order:
instantiating the WebDriver (which yields a session identifier),
`implicitly_wait(10)`, `maximize_window()`, and the test body run at `yield`.
Each may raise. -/
structure SessionOps where
  create : Except String Nat
  implicitlyWait : Except String Unit
  maximize : Except String Unit
  body : Except String Unit
deriving Repr

/-- Everything observable about one execution of the fixture: the exception
it terminates with (if any), the session that was created, the sessions that
were quit in the `finally` block, the options object used, the implicit wait
that was installed, and whether the window was maximized. -/
structure FixtureRun where
  result : Except String Unit
  created : Option Nat
  quit : List Nat
  config : Option DriverConfig
  implicitWait : Option Nat
  maximized : Bool
deriving DecidableEq, Repr

/-- The `driver` fixture: branch on the browser name, create the session,
configure it, yield to the test, and in the `finally` block quit the session
whenever `driver_instance` is set. -/
def driverFixture (browserName : String) (headless : Bool) (ops : SessionOps) :
    FixtureRun :=
  match buildConfig browserName headless with
  | .error e =>
      { result := .error e, created := none, quit := [], config := none,
        implicitWait := none, maximized := false }
  | .ok cfg =>
      match ops.create with
      | .error e =>
          { result := .error e, created := none, quit := [], config := some cfg,
            implicitWait := none, maximized := false }
      | .ok sid =>
          match ops.implicitlyWait with
          | .error e =>
              { result := .error e, created := some sid, quit := [sid],
                config := some cfg, implicitWait := none, maximized := false }
          | .ok _ =>
              match ops.maximize with
              | .error e =>
                  { result := .error e, created := some sid, quit := [sid],
                    config := some cfg, implicitWait := some 10, maximized := false }
              | .ok _ =>
                  { result := ops.body, created := some sid, quit := [sid],
                    config := some cfg, implicitWait := some 10, maximized := true }

/-- The documented option set of `--browser` (spec §6), as written. -/
def supportedBrowsers : List String := ["chrome", "firefox", "headless-chrome"]

/-- The window-size argument configured on the options object, if any. -/
def configuredWindowSize (cfg : DriverConfig) : Option String :=
  cfg.args.find? (fun a => a.startsWith "--window-size")

/-- The window size after the fixture finishes setup: `maximize_window()` sets
it to the screen size; if the fixture never maximized, the size is whatever
the environment gave the window. -/
def finalWindowSize (screen : Nat × Nat) (run : FixtureRun) : Option (Nat × Nat) :=
  if run.maximized then some screen else none

/-- C4: whenever the fixture created a browser session, that session is quit
in the `finally` block — on normal completion, on a failing test body, and on
an exception raised during setup after creation. -/
theorem driver_session_always_quit (browserName : String) (headless : Bool)
    (ops : SessionOps) (sid : Nat)
    (h : (driverFixture browserName headless ops).created = some sid) :
    (driverFixture browserName headless ops).quit = [sid] := by
  unfold driverFixture at h ⊢
  rcases hb : buildConfig browserName headless with e | cfg <;> simp only [hb] at h ⊢
  · simp at h
  rcases hc : ops.create with e | sid2 <;> simp only [hc] at h ⊢
  · simp at h
  rcases hi : ops.implicitlyWait with e | u <;> simp only [hi] at h ⊢
  · simp only [Option.some.injEq] at h
    rw [h]
  rcases hm : ops.maximize with e | u <;> simp only [hm] at h ⊢ <;>
    simp only [Option.some.injEq] at h <;> rw [h]

/-- Witness for C4: a chrome run whose test body fails still quits session 7. -/
theorem driver_session_always_quit_witness :
    (driverFixture "chrome" false
        ⟨.ok 7, .ok (), .ok (), .error "AssertionError"⟩).created = some 7 ∧
    (driverFixture "chrome" false
        ⟨.ok 7, .ok (), .ok (), .error "AssertionError"⟩).quit = [7] :=
  ⟨by decide, driver_session_always_quit "chrome" false
      ⟨.ok 7, .ok (), .ok (), .error "AssertionError"⟩ 7 (by decide)⟩

/-- Character-list prefix test, written out so the kernel can evaluate it. -/
def leadEq : List Char → List Char → Bool
  | [], _ => true
  | _ :: _, [] => false
  | a :: as, b :: bs => a == b && leadEq as bs

/-- C6 counterexample: `"Chrome"` is a selection string outside the documented
set `{chrome, firefox, headless-chrome}`, yet the fixture raises no error and
creates a session, because the code compares `browser_name.lower()`. -/
theorem driver_unsupported_raises_counterexample :
    "Chrome" ∉ supportedBrowsers ∧
    (driverFixture "Chrome" false ⟨.ok 7, .ok (), .ok (), .ok ()⟩).result = .ok () ∧
    (driverFixture "Chrome" false ⟨.ok 7, .ok (), .ok (), .ok ()⟩).created = some 7 :=
  ⟨by decide, by decide, by decide⟩

/-- C6 (amended): for every selection whose lowercased form is outside the
documented set, the fixture raises the invalid-argument error before any
session is created; every selection whose lowercased form is in the set picks
a branch that builds an options object instead. -/
theorem driver_unsupported_raises (s : String) (headless : Bool) (ops : SessionOps)
    (h : pyLower s ∉ supportedBrowsers) :
    (driverFixture s headless ops).result = .error ("Unsupported browser: " ++ s) ∧
    (driverFixture s headless ops).created = none ∧
    ∀ t : String, pyLower t ∈ supportedBrowsers →
      ∃ cfg, buildConfig t headless = .ok cfg := by
  simp only [supportedBrowsers, List.mem_cons, List.not_mem_nil, or_false] at h
  push_neg at h
  obtain ⟨h1, h2, h3⟩ := h
  have b1 : (pyLower s == "chrome") = false := beq_eq_false_iff_ne.mpr h1
  have b2 : (pyLower s == "firefox") = false := beq_eq_false_iff_ne.mpr h2
  have b3 : (pyLower s == "headless-chrome") = false := beq_eq_false_iff_ne.mpr h3
  have hb : buildConfig s headless = .error ("Unsupported browser: " ++ s) := by
    simp [buildConfig, b1, b2, b3]
  refine ⟨?_, ?_, ?_⟩
  · simp only [driverFixture, hb]
  · simp only [driverFixture, hb]
  · intro t ht
    simp only [supportedBrowsers, List.mem_cons, List.not_mem_nil, or_false] at ht
    rcases ht with h | h | h
    · refine ⟨⟨.chrome, chromeArgs headless "chrome"⟩, ?_⟩
      unfold buildConfig
      rw [h]
      rfl
    · refine ⟨⟨.firefox, firefoxArgs headless⟩, ?_⟩
      unfold buildConfig
      rw [h]
      rfl
    · refine ⟨⟨.chrome, chromeArgs headless "headless-chrome"⟩, ?_⟩
      unfold buildConfig
      rw [h]
      rfl

/-- Witness for C6 (amended) at the concrete selection `"safari"`. -/
theorem driver_unsupported_raises_witness :
    pyLower "safari" ∉ supportedBrowsers ∧
    ((driverFixture "safari" true ⟨.ok 3, .ok (), .ok (), .ok ()⟩).result
        = .error ("Unsupported browser: " ++ "safari") ∧
      (driverFixture "safari" true ⟨.ok 3, .ok (), .ok (), .ok ()⟩).created = none ∧
      ∀ t : String, pyLower t ∈ supportedBrowsers →
        ∃ cfg, buildConfig t true = .ok cfg) :=
  ⟨by decide,
   driver_unsupported_raises "safari" true ⟨.ok 3, .ok (), .ok (), .ok ()⟩ (by decide)⟩

/-- C9 counterexample: the fixture does not behave identically on `"FOO"` and
its case variant `"foo"` — both raise, but the `ValueError` message embeds the
original casing, so the observable behaviour differs. -/
theorem driver_case_variant_counterexample :
    (driverFixture "FOO" false ⟨.ok 0, .ok (), .ok (), .ok ()⟩).result
      ≠ (driverFixture "foo" false ⟨.ok 0, .ok (), .ok (), .ok ()⟩).result := by
  decide

/-- C9 (amended): branch selection is case-insensitive — for selections whose
lowercased form is one of the supported names, the fixture behaves identically
on any two case variants; only the error message for unsupported selections
depends on the original casing. -/
theorem driver_case_insensitive_on_supported (s t : String) (headless : Bool)
    (ops : SessionOps) (hst : pyLower s = pyLower t)
    (hs : pyLower s ∈ supportedBrowsers) :
    driverFixture s headless ops = driverFixture t headless ops := by
  have hbc : buildConfig s headless = buildConfig t headless := by
    simp only [supportedBrowsers, List.mem_cons, List.not_mem_nil, or_false] at hs
    rcases hs with h1 | h1 | h1 <;>
      · have h2 := hst.symm.trans h1
        unfold buildConfig
        rw [h1, h2]
        rfl
  unfold driverFixture
  rw [hbc]

/-- Witness for C9 (amended): `"Chrome"` and `"chrome"` give identical runs. -/
theorem driver_case_insensitive_on_supported_witness :
    pyLower "Chrome" = pyLower "chrome" ∧
    pyLower "Chrome" ∈ supportedBrowsers ∧
    driverFixture "Chrome" false ⟨.ok 1, .ok (), .ok (), .ok ()⟩
      = driverFixture "chrome" false ⟨.ok 1, .ok (), .ok (), .ok ()⟩ :=
  ⟨by decide, by decide,
   driver_case_insensitive_on_supported "Chrome" "chrome" false
     ⟨.ok 1, .ok (), .ok (), .ok ()⟩ (by decide) (by decide)⟩

/-- C5 counterexample: the configured window size is selection-dependent — the
chrome branch adds `--window-size=1920,1080` to its options while the firefox
branch configures no window size at all, so two sessions produced by the
fixture under different supported selections are not configured with one fixed
window size. -/
theorem driver_window_size_counterexample :
    ((driverFixture "chrome" false ⟨.ok 1, .ok (), .ok (), .ok ()⟩).config.map
        (fun c => c.args.filter (fun a => leadEq "--window-size".data a.data)))
      = some ["--window-size=1920,1080"] ∧
    ((driverFixture "firefox" false ⟨.ok 1, .ok (), .ok (), .ok ()⟩).config.map
        (fun c => c.args.filter (fun a => leadEq "--window-size".data a.data)))
      = some [] := by
  exact ⟨by decide, by decide⟩

/-- C5 (amended): every supported selection installs the implicit wait of 10
and then maximizes the window, so the final window size equals the screen
size — identical for any two sessions sharing a screen, though environment
dependent rather than a fixed constant; only the chrome branches additionally
configure the fixed `--window-size=1920,1080` argument. -/
theorem driver_window_and_wait (s : String) (headless : Bool) (ops : SessionOps)
    (screen : Nat × Nat) (sid : Nat)
    (hs : pyLower s ∈ supportedBrowsers)
    (hc : ops.create = .ok sid) (hi : ops.implicitlyWait = .ok ())
    (hm : ops.maximize = .ok ()) :
    (driverFixture s headless ops).implicitWait = some 10 ∧
    (driverFixture s headless ops).maximized = true ∧
    finalWindowSize screen (driverFixture s headless ops) = some screen ∧
    ∀ cfg, (driverFixture s headless ops).config = some cfg → cfg.kind = .chrome →
      "--window-size=1920,1080" ∈ cfg.args := by
  have hb : ∃ cfg, buildConfig s headless = .ok cfg ∧
      (cfg.kind = .chrome → "--window-size=1920,1080" ∈ cfg.args) := by
    simp only [supportedBrowsers, List.mem_cons, List.not_mem_nil, or_false] at hs
    rcases hs with h | h | h
    · refine ⟨⟨.chrome, chromeArgs headless "chrome"⟩, ?_, ?_⟩
      · unfold buildConfig
        rw [h]
        rfl
      · intro _
        unfold chromeArgs
        split <;> simp
    · refine ⟨⟨.firefox, firefoxArgs headless⟩, ?_, ?_⟩
      · unfold buildConfig
        rw [h]
        rfl
      · intro hk
        simp at hk
    · refine ⟨⟨.chrome, chromeArgs headless "headless-chrome"⟩, ?_, ?_⟩
      · unfold buildConfig
        rw [h]
        rfl
      · intro _
        unfold chromeArgs
        split <;> simp
  obtain ⟨cfg, hbc, hchrome⟩ := hb
  have hfix : driverFixture s headless ops =
      { result := ops.body, created := some sid, quit := [sid],
        config := some cfg, implicitWait := some 10, maximized := true } := by
    unfold driverFixture
    rw [hbc, hc, hi, hm]
  rw [hfix]
  refine ⟨rfl, rfl, rfl, ?_⟩
  intro cfg2 hcfg2 hkind
  have : cfg2 = cfg := by
    simpa using hcfg2.symm
  rw [this] at hkind ⊢
  exact hchrome hkind

/-- Witness for C5 (amended) at the chrome selection on a 1366 by 768 screen. -/
theorem driver_window_and_wait_witness :
    pyLower "chrome" ∈ supportedBrowsers ∧
    ((driverFixture "chrome" false ⟨.ok 5, .ok (), .ok (), .ok ()⟩).implicitWait
        = some 10 ∧
      (driverFixture "chrome" false ⟨.ok 5, .ok (), .ok (), .ok ()⟩).maximized = true ∧
      finalWindowSize (1366, 768)
          (driverFixture "chrome" false ⟨.ok 5, .ok (), .ok (), .ok ()⟩)
        = some (1366, 768) ∧
      ∀ cfg, (driverFixture "chrome" false ⟨.ok 5, .ok (), .ok (), .ok ()⟩).config
          = some cfg → cfg.kind = .chrome → "--window-size=1920,1080" ∈ cfg.args) :=
  ⟨by decide,
   driver_window_and_wait "chrome" false ⟨.ok 5, .ok (), .ok (), .ok ()⟩ (1366, 768) 5
     (by decide) rfl rfl rfl⟩

/-! ### Screenshot and diagnostics helpers of `tests/conftest.py` -/

/-- The fixed output directory of every diagnostics helper. -/
def screenshots_dir : String := "test_screenshots"

/-- Components of `datetime.datetime.now()` that
`strftime("%Y%m%d_%H%M%S")` consumes. -/
structure PyDateTime where
  year : Nat
  month : Nat
  day : Nat
  hour : Nat
  minute : Nat
  second : Nat
deriving DecidableEq, Repr

/-- Zero-padding to two digits, as `%m %d %H %M %S` do. -/
def pad2 (n : Nat) : String :=
  if n < 10 then "0" ++ toString n else toString n

/-- Zero-padding to four digits, as `%Y` does. -/
def pad4 (n : Nat) : String :=
  if n < 10 then "000" ++ toString n
  else if n < 100 then "00" ++ toString n
  else if n < 1000 then "0" ++ toString n
  else toString n

/-- `datetime.now().strftime("%Y%m%d_%H%M%S")`. -/
def strftimeTs (t : PyDateTime) : String :=
  pad4 t.year ++ pad2 t.month ++ pad2 t.day ++ "_"
    ++ pad2 t.hour ++ pad2 t.minute ++ pad2 t.second

/-- Fuel-bounded replacement of every non-overlapping occurrence of `needle`
by `repl`, left to right; with fuel at least the list length this is Python's
`str.replace`. -/
def replaceFuel (needle repl : List Char) : Nat → List Char → List Char
  | _, [] => []
  | 0, s => s
  | fuel + 1, c :: rest =>
      if needle ≠ [] ∧ leadEq needle (c :: rest) = true then
        repl ++ replaceFuel needle repl fuel (List.drop (needle.length - 1) rest)
      else
        c :: replaceFuel needle repl fuel rest

/-- Python `s.replace(needle, repl)` (both arguments non-empty here). -/
def pyReplace (s needle repl : String) : String :=
  ⟨replaceFuel needle.data repl.data s.data.length s.data⟩

/-- `item.nodeid.replace("::", "_").replace("/", "_")` of the failure hook. -/
def sanitizeNodeId (nodeid : String) : String :=
  pyReplace (pyReplace nodeid "::" "_") "/" "_"

/-- Observable outcome of one call to a screenshot helper: the value it
returns, the directories it ensured exist, and the lines it printed. -/
structure ScreenshotResult where
  filename : String
  dirsCreated : List String
  logs : List String
deriving DecidableEq, Repr

/-- `BaseSeleniumTest.take_screenshot`: ensure `test_screenshots` exists
(`exist_ok=True`), build the timestamped filename, attempt
`driver.save_screenshot(filename)` inside try/except printing either the
success or the failure line, and return the filename either way.  The outer
`Except` layer is the exception the call would propagate to its caller; the
body catches every capture exception, so the constructor is always `.ok`. -/
def take_screenshot (save : String → Except String Unit) (name : String)
    (now : PyDateTime) : Except String ScreenshotResult :=
  let timestamp := strftimeTs now
  let filename := screenshots_dir ++ "/" ++ name ++ "_" ++ timestamp ++ ".png"
  let logs :=
    match save filename with
    | .ok _ => ["Screenshot saved: " ++ filename]
    | .error e => ["Failed to take screenshot: " ++ e]
  .ok ⟨filename, [screenshots_dir], logs⟩

/-- `BaseSeleniumTest.take_element_screenshot`: same shape as
`take_screenshot` but calling `element.screenshot(filename)`. -/
def take_element_screenshot (elementSave : String → Except String Unit)
    (name : String) (now : PyDateTime) : Except String ScreenshotResult :=
  let timestamp := strftimeTs now
  let filename := screenshots_dir ++ "/" ++ name ++ "_" ++ timestamp ++ ".png"
  let logs :=
    match elementSave filename with
    | .ok _ => ["Element screenshot saved: " ++ filename]
    | .error e => ["Failed to take element screenshot: " ++ e]
  .ok ⟨filename, [screenshots_dir], logs⟩

/-- A pytest test report as the failure hook sees it: `rep.when` and
`rep.failed`. -/
structure Report where
  phase : String
  failed : Bool
deriving DecidableEq, Repr

/-- External effects available to the failure hook: the driver screenshot
call, the page-source file write, the page source itself, and whether the
test used the `driver` fixture. -/
structure HookOps where
  save : String → Except String Unit
  writeFile : String → String → Except String Unit
  pageSource : String
  hasDriver : Bool

/-- Observable outcome of `pytest_runtest_makereport`: the report handed back
to pytest, the directories ensured, the printed lines, and the files written
(with the text content for the page-source dump, `none` for binary). -/
structure HookResult where
  report : Report
  dirsCreated : List String
  logs : List String
  filesWritten : List (String × Option String)

/-- `pytest_runtest_makereport`: on a failed `call` phase of a test that used
the driver fixture, best-effort-capture a screenshot and the page source into
failure-named files; the whole capture sits in one try/except whose handler
only prints, so no exception escapes and the report is returned unchanged. -/
def pytest_runtest_makereport (rep : Report) (ops : HookOps) (nodeid : String)
    (now : PyDateTime) : Except String HookResult :=
  if rep.phase == "call" && rep.failed && ops.hasDriver then
    let testName := sanitizeNodeId nodeid
    let timestamp := strftimeTs now
    let filename := screenshots_dir ++ "/FAILED_" ++ testName ++ "_" ++ timestamp ++ ".png"
    let sourceFilename :=
      screenshots_dir ++ "/FAILED_" ++ testName ++ "_" ++ timestamp ++ "_source.html"
    let step : List String × List (String × Option String) :=
      match ops.save filename with
      | .error e => (["Failed to capture failure screenshot: " ++ e], [])
      | .ok _ =>
          match ops.writeFile sourceFilename ops.pageSource with
          | .error e =>
              (["\n📸 Failure screenshot saved: " ++ filename,
                "Failed to capture failure screenshot: " ++ e],
               [(filename, none)])
          | .ok _ =>
              (["\n📸 Failure screenshot saved: " ++ filename,
                "📄 Page source saved: " ++ sourceFilename],
               [(filename, none), (sourceFilename, some ops.pageSource)])
    .ok ⟨rep, [screenshots_dir], step.1, step.2⟩
  else
    .ok ⟨rep, [], [], []⟩

/-- C3: capture failures never propagate — for every outcome of the
underlying disk and driver effects, both screenshot helpers and the
failure-report hook return normally, and the hook hands the test report back
unchanged, preserving the original test outcome. -/
theorem diagnostics_never_propagate (save esave : String → Except String Unit)
    (name ename nodeid : String) (now : PyDateTime) (rep : Report) (ops : HookOps) :
    (∃ r, take_screenshot save name now = .ok r) ∧
    (∃ r, take_element_screenshot esave ename now = .ok r) ∧
    (∃ r, pytest_runtest_makereport rep ops nodeid now = .ok r ∧ r.report = rep) := by
  refine ⟨⟨_, rfl⟩, ⟨_, rfl⟩, ?_⟩
  unfold pytest_runtest_makereport
  split
  · exact ⟨_, rfl, rfl⟩
  · exact ⟨_, rfl, rfl⟩

/-- C10: both screenshot helpers always return the computed timestamped
filename — also when the underlying capture fails and is swallowed, in which
case the returned path names a file that was never written. -/
theorem screenshot_returns_filename_even_on_failure
    (save esave : String → Except String Unit) (e1 e2 : String)
    (name ename : String) (now : PyDateTime) :
    (∃ r, take_screenshot save name now = .ok r ∧
      r.filename = screenshots_dir ++ "/" ++ name ++ "_" ++ strftimeTs now ++ ".png") ∧
    (∃ r, take_screenshot (fun _ => .error e1) name now = .ok r ∧
      r.filename = screenshots_dir ++ "/" ++ name ++ "_" ++ strftimeTs now ++ ".png" ∧
      r.logs = ["Failed to take screenshot: " ++ e1]) ∧
    (∃ r, take_element_screenshot esave ename now = .ok r ∧
      r.filename = screenshots_dir ++ "/" ++ ename ++ "_" ++ strftimeTs now ++ ".png") ∧
    (∃ r, take_element_screenshot (fun _ => .error e2) ename now = .ok r ∧
      r.filename = screenshots_dir ++ "/" ++ ename ++ "_" ++ strftimeTs now ++ ".png" ∧
      r.logs = ["Failed to take element screenshot: " ++ e2]) :=
  ⟨⟨_, rfl, rfl⟩, ⟨_, rfl, rfl, rfl⟩, ⟨_, rfl, rfl⟩, ⟨_, rfl, rfl, rfl⟩⟩

/-- C8: every diagnostics file lands under the fixed relative directory
`test_screenshots` (ensured to exist), on-demand captures are named
`{label}_{timestamp}.png` with the `%Y%m%d_%H%M%S` timestamp, and failure
captures are named `FAILED_{test-id}_{timestamp}.png` plus a sibling file
`..._source.html` holding the page source. -/
theorem diagnostics_file_naming (save esave : String → Except String Unit)
    (name ename nodeid page : String) (now : PyDateTime) :
    (∃ r, take_screenshot save name now = .ok r ∧
      r.dirsCreated = ["test_screenshots"] ∧
      r.filename = "test_screenshots" ++ "/" ++ name ++ "_" ++ strftimeTs now ++ ".png") ∧
    (∃ r, take_element_screenshot esave ename now = .ok r ∧
      r.dirsCreated = ["test_screenshots"] ∧
      r.filename = "test_screenshots" ++ "/" ++ ename ++ "_" ++ strftimeTs now ++ ".png") ∧
    (∃ r, pytest_runtest_makereport ⟨"call", true⟩
          ⟨fun _ => .ok (), fun _ _ => .ok (), page, true⟩ nodeid now = .ok r ∧
      r.dirsCreated = ["test_screenshots"] ∧
      r.filesWritten =
        [("test_screenshots" ++ "/FAILED_" ++ sanitizeNodeId nodeid ++ "_"
            ++ strftimeTs now ++ ".png", none),
         ("test_screenshots" ++ "/FAILED_" ++ sanitizeNodeId nodeid ++ "_"
            ++ strftimeTs now ++ "_source.html", some page)]) :=
  ⟨⟨_, rfl, rfl, rfl⟩, ⟨_, rfl, rfl, rfl⟩, ⟨_, rfl, rfl, rfl⟩⟩

/-! ### The partial-content-load (HTMX) scenario -/

/-- Character-list substring test: does `needle` occur anywhere in the
second list? -/
def occursIn (needle : List Char) : List Char → Bool
  | [] => leadEq needle []
  | c :: rest => leadEq needle (c :: rest) || occursIn needle rest

/-- Python-style `sub in s` substring containment on strings. -/
def strContains (s sub : String) : Bool :=
  occursIn sub.data s.data

/-- The three HTMX attributes a control carries. -/
structure HtmxControl where
  hxGet : String
  hxTarget : String
  hxSwap : String
deriving DecidableEq, Repr

/-- Modelled from the spec: the homepage template carrying the
partial-content-load control is part of this repository but not under `src/`
(only the Selenium tests that assert on it are).  Per spec §6/§8 and the
attribute assertions of `test_htmx_request_attributes`, the control carries
the request path `/htmx-demo/`, the target selector `#htmx-result` and the
swap mode `innerHTML`. -/
def htmxButton : HtmxControl :=
  { hxGet := "/htmx-demo/", hxTarget := "#htmx-result", hxSwap := "innerHTML" }

/-- Modelled from the spec: the `/htmx-demo/` view is not under `src/`;
spec §6 states `GET /htmx-demo/` returns a fragment containing the marker
text `HTMX is working!`. -/
def serverGet (path : String) : Option String :=
  if path == "/htmx-demo/" then some "HTMX is working!" else none

/-- The observable state of the result container: its text. -/
structure DomState where
  htmxResultText : String
deriving DecidableEq, Repr

/-- Modelled from the spec: the result container starts out empty
(`test_htmx_result_container_exists` asserts empty initial text). -/
def initialDom : DomState := ⟨""⟩

/-- Modelled from the spec: clicking the control issues a background `GET`
on its `hx-get` path, and the response replaces the inner content of the
`hx-target` container (`#htmx-result`, swap mode `innerHTML`); on any other
target or swap mode, or a missing response, the container is unchanged. -/
def clickControl (c : HtmxControl) (s : DomState) : DomState :=
  match serverGet c.hxGet with
  | some frag =>
      if c.hxTarget == "#htmx-result" && c.hxSwap == "innerHTML" then ⟨frag⟩ else s
  | none => s

/-- The container state `t` time units after a click whose response and swap
land after `delay` units. -/
def domAt (pre post : DomState) (delay t : Nat) : DomState :=
  if t < delay then pre else post

/-- The bounded wait `wait_for_text_in_element`: poll once per time unit up
to the timeout, succeeding as soon as the text is contained. -/
def waitForText (timeout delay : Nat) (pre post : DomState) (sub : String) : Bool :=
  (List.range (timeout + 1)).any
    (fun t => strContains (domAt pre post delay t).htmxResultText sub)

/-- C7: the control carries exactly the attributes `hx-get = /htmx-demo/`,
`hx-target = #htmx-result`, `hx-swap = innerHTML`; from the empty initial
container a click makes the text contain `HTMX is working!`, the bounded wait
of 10 time units observes it whenever the swap lands within 10 units, and
repeating the click any number of times (in particular 3) yields the marker
each time. -/
theorem htmx_content_loading (pre : DomState) (delay k : Nat)
    (hdelay : delay ≤ 10) (hk : 1 ≤ k) :
    htmxButton.hxGet = "/htmx-demo/" ∧
    htmxButton.hxTarget = "#htmx-result" ∧
    htmxButton.hxSwap = "innerHTML" ∧
    initialDom.htmxResultText = "" ∧
    strContains (clickControl htmxButton pre).htmxResultText "HTMX is working!" = true ∧
    waitForText 10 delay pre (clickControl htmxButton pre) "HTMX is working!" = true ∧
    strContains ((clickControl htmxButton)^[k] initialDom).htmxResultText
      "HTMX is working!" = true := by
  have hclick : ∀ s : DomState, clickControl htmxButton s = ⟨"HTMX is working!"⟩ :=
    fun s => rfl
  have hmarker : strContains "HTMX is working!" "HTMX is working!" = true := by decide
  refine ⟨rfl, rfl, rfl, rfl, ?_, ?_, ?_⟩
  · rw [hclick pre]
    exact hmarker
  · unfold waitForText
    apply List.any_eq_true.mpr
    refine ⟨delay, List.mem_range.mpr (Nat.lt_succ_of_le hdelay), ?_⟩
    unfold domAt
    rw [if_neg (lt_irrefl delay), hclick pre]
    exact hmarker
  · obtain ⟨j, rfl⟩ : ∃ j, k = j + 1 := ⟨k - 1, (Nat.succ_pred_eq_of_pos hk).symm⟩
    rw [Function.iterate_succ_apply', hclick]
    exact hmarker

/-- Witness for C7: swap landing after 5 units, clicked 3 times. -/
theorem htmx_content_loading_witness :
    5 ≤ 10 ∧ 1 ≤ 3 ∧
    (htmxButton.hxGet = "/htmx-demo/" ∧
      htmxButton.hxTarget = "#htmx-result" ∧
      htmxButton.hxSwap = "innerHTML" ∧
      initialDom.htmxResultText = "" ∧
      strContains (clickControl htmxButton initialDom).htmxResultText
        "HTMX is working!" = true ∧
      waitForText 10 5 initialDom (clickControl htmxButton initialDom)
        "HTMX is working!" = true ∧
      strContains ((clickControl htmxButton)^[3] initialDom).htmxResultText
        "HTMX is working!" = true) :=
  ⟨by decide, by decide, htmx_content_loading initialDom 5 3 (by decide) (by decide)⟩
